import Mathlib

/-!
Shallow embedding of the core of `tuya_roon_robust.py` (RobustTuyaRoonController):
the retry wrapper `robust_roon_command`, the volume operations, zone resolution,
the MQTT callbacks and config saving.  Python values that flow through the retry
wrapper are modelled by `PyVal` (Python `None`, booleans and integers); an
operation that raises is modelled by returning `Option.none` at the outer layer,
while a Python `None` return value is `some PyVal.none`.  External effects
(setup_roon outcomes, the Roon volume read/write, playback control) are supplied
as oracles in `Eff`, indexed by per-kind invocation counters kept in the
controller state `Ctrl`; remote calls that the code issues are recorded in
trace fields (`setCalls`, `playCalls`).
-/

/-- A Python value as it flows through the controller: `None`, a bool, or an int. -/
inductive PyVal where
  | none
  | bool (b : Bool)
  | int (n : Int)
deriving DecidableEq, Repr

/-- Python truthiness of a `PyVal`. -/
def pyTruthy : PyVal → Bool
  | PyVal.none => false
  | PyVal.bool b => b
  | PyVal.int n => n != 0

/-- Python `v + d` for an int `d`; `False` counts as 0 and `True` as 1.
`None + d` raises in Python; it is unreachable behind the `is not None`
guard in `change_volume`, and modelled as `d` here. -/
def pyAdd : PyVal → Int → Int
  | PyVal.none, d => d
  | PyVal.bool b, d => (if b then 1 else 0) + d
  | PyVal.int n, d => n + d

/-- Whether the first char list is an initial segment of the second. -/
def leadEq : List Char → List Char → Bool
  | [], _ => true
  | _ :: _, [] => false
  | a :: as, b :: bs => a == b && leadEq as bs

/-- Whether `needle` occurs contiguously inside `hay` (Python `needle in hay`). -/
def hasSub (needle : List Char) : List Char → Bool
  | [] => leadEq needle []
  | c :: rest => leadEq needle (c :: rest) || hasSub needle rest

/-- Python substring test `needle in hay` on strings. -/
def strHasSub (needle hay : String) : Bool :=
  hasSub needle.toList hay.toList

/-- Oracles for the external world: outcomes of `setup_roon` calls, of
`roonapi.get_volume_percent`, `roonapi.set_volume_percent` and
`roonapi.playback_control` invocations (indexed by invocation count),
the enumerated zones (id, state, output ids) and the current wall time. -/
structure Eff where
  setupSucceeds : Nat → Bool
  setupConstructs : Nat → Bool
  volRead : Nat → Except Unit Int
  setWrite : Nat → Bool
  playCtl : Nat → Bool
  zones : List (String × String × List String)
  now : Nat

/-- Controller state: the fields of RobustTuyaRoonController that the core
touches, invocation counters for the oracles, and traces of the remote
volume/playback calls actually issued. -/
structure Ctrl where
  hasApi : Bool
  zoneOutputId : Option String
  roonConnectionHealthy : Bool
  lastSuccessfulCommand : Nat
  mqttConnected : Bool
  knobBattery : Option Int
  knobVoltage : Option Int
  knobLinkquality : Option Int
  knobLastSeen : Option Nat
  setCalls : List (String × Int)
  playCalls : List (String × String)
  volReadCount : Nat
  setWriteCount : Nat
  playCtlCount : Nat
  setupCount : Nat
  opCount : Nat
deriving DecidableEq, Repr

/-- Embeds `setup_roon`: on success the Roon handle exists and the health flag
is set; on failure the health flag is cleared, and the handle may or may not
have been constructed before the failure (timeout after construction). -/
def setup_roon (eff : Eff) (s : Ctrl) : Ctrl × Bool :=
  let k := s.setupCount
  if eff.setupSucceeds k then
    ({ s with setupCount := k + 1, hasApi := true, roonConnectionHealthy := true }, true)
  else
    ({ s with setupCount := k + 1, hasApi := s.hasApi || eff.setupConstructs k, roonConnectionHealthy := false }, false)

/-- One pass of the `for attempt in range(max_retries)` loop of
`robust_roon_command`, with `rem` the attempts left after this one.
The operation `op` returns `Option.none` when it raises. -/
def robustLoop (eff : Eff) (op : Ctrl → Ctrl × Option PyVal) :
    Nat → Ctrl → Ctrl × PyVal
  | 0, s => (s, PyVal.bool false)
  | rem + 1, s =>
    let (s', proceed) :=
      if s.hasApi then (s, true)
      else setup_roon eff s
    if proceed then
      let (s1, r) := op s'
      match r with
      | some v =>
        ({ s1 with lastSuccessfulCommand := eff.now, roonConnectionHealthy := true }, v)
      | Option.none =>
        if 0 < rem then robustLoop eff op rem (setup_roon eff s1).1
        else ({ s1 with roonConnectionHealthy := false }, PyVal.bool false)
    else
      if 0 < rem then robustLoop eff op rem s'
      else ({ s' with roonConnectionHealthy := false }, PyVal.bool false)

/-- Embeds `robust_roon_command(command_func, max_retries=3)`; returns the
operation result, or Python `False` when all attempts fail. -/
def robust_roon_command (eff : Eff) (op : Ctrl → Ctrl × Option PyVal)
    (maxRetries : Nat := 3) (s : Ctrl) : Ctrl × PyVal :=
  robustLoop eff op maxRetries s

/-- A command whose k-th invocation has outcome `outs k` (`Option.none` means
it raises); used to state properties of the retry wrapper over an arbitrary
operation.  The invocation counter is `opCount`. -/
def seqOp (outs : Nat → Option PyVal) (s : Ctrl) : Ctrl × Option PyVal :=
  ({ s with opCount := s.opCount + 1 }, outs s.opCount)

/-- Body of the nested `_get_volume` in `get_current_volume`: `None` when no
zone is bound or no handle exists, otherwise the oracle's volume (exceptions
from the remote read are caught and yield `None`).  Never raises. -/
def getVolumeBody (eff : Eff) (s : Ctrl) : Ctrl × Option PyVal :=
  match s.zoneOutputId with
  | Option.none => (s, some PyVal.none)
  | some _ =>
    if s.hasApi then
      let k := s.volReadCount
      let s1 := { s with volReadCount := k + 1 }
      match eff.volRead k with
      | Except.ok v => (s1, some (PyVal.int v))
      | Except.error _ => (s1, some PyVal.none)
    else (s, some PyVal.none)

/-- Embeds `get_current_volume`. -/
def get_current_volume (eff : Eff) (s : Ctrl) : Ctrl × PyVal :=
  robust_roon_command eff (getVolumeBody eff) 3 s

/-- Body of the nested `_set_volume` in `set_volume`: clamps the requested
volume to 0..100, issues `set_volume_percent` (recorded in `setCalls`), and
returns `True`, or `False` when no zone/handle or the remote call raised
(caught).  Never raises. -/
def setVolumeBody (eff : Eff) (volumePercent : Int) (s : Ctrl) : Ctrl × Option PyVal :=
  match s.zoneOutputId with
  | Option.none => (s, some (PyVal.bool false))
  | some z =>
    if s.hasApi then
      let clamped := max 0 (min 100 volumePercent)
      let k := s.setWriteCount
      let s1 := { s with setWriteCount := k + 1, setCalls := s.setCalls ++ [(z, clamped)] }
      if eff.setWrite k then (s1, some (PyVal.bool true))
      else (s1, some (PyVal.bool false))
    else (s, some (PyVal.bool false))

/-- Embeds `set_volume(volume_percent)`. -/
def set_volume (eff : Eff) (volumePercent : Int) (s : Ctrl) : Ctrl × PyVal :=
  robust_roon_command eff (setVolumeBody eff volumePercent) 3 s

/-- Embeds `change_volume(delta)`: read the current volume; if it `is not
None`, clamp `current + delta` and set it.  Note the wrapper's failure value
`False` passes the `is not None` guard with `False + delta = delta`. -/
def change_volume (eff : Eff) (delta : Int) (s : Ctrl) : Ctrl × Bool :=
  let (s1, current) := get_current_volume eff s
  if current ≠ PyVal.none then
    let newVolume := max 0 (min 100 (pyAdd current delta))
    let (s2, r) := set_volume eff newVolume s1
    if pyTruthy r then (s2, true) else (s2, false)
  else (s1, false)

/-- First zone (id, state) whose outputs contain the given output id, in
enumeration order; embeds the nested scan in `toggle_playback`. -/
def findZoneContaining (zs : List (String × String × List String)) (out : String) :
    Option (String × String) :=
  match zs with
  | [] => Option.none
  | (zid, st, outs) :: rest =>
    if outs.contains out then some (zid, st) else findZoneContaining rest out

/-- Body of the nested `_toggle_playback` in `toggle_playback`: locate the
zone containing the bound output, issue pause when playing and play otherwise,
falling back to playpause when the first verb raises.  Never raises. -/
def togglePlaybackBody (eff : Eff) (s : Ctrl) : Ctrl × Option PyVal :=
  match s.zoneOutputId with
  | Option.none => (s, some (PyVal.bool false))
  | some out =>
    if s.hasApi then
      match findZoneContaining eff.zones out with
      | Option.none => (s, some (PyVal.bool false))
      | some (zid, st) =>
        let verb := if st = "playing" then "pause" else "play"
        let k := s.playCtlCount
        let s1 := { s with playCtlCount := k + 1, playCalls := s.playCalls ++ [(zid, verb)] }
        if eff.playCtl k then (s1, some (PyVal.bool true))
        else
          let k1 := s1.playCtlCount
          let s2 := { s1 with playCtlCount := k1 + 1, playCalls := s1.playCalls ++ [(zid, "playpause")] }
          if eff.playCtl k1 then (s2, some (PyVal.bool true))
          else (s2, some (PyVal.bool false))
    else (s, some (PyVal.bool false))

/-- Embeds `toggle_playback` (its Python return value is `None` and unused). -/
def toggle_playback (eff : Eff) (s : Ctrl) : Ctrl :=
  (robust_roon_command eff (togglePlaybackBody eff) 3 s).1

/-- Embeds `handle_knob_action(action)` with the configured positive
`volume_step` passed in as `step`; returns immediately when no zone is bound. -/
def handle_knob_action (eff : Eff) (step : Int) (action : String) (s : Ctrl) : Ctrl :=
  match s.zoneOutputId with
  | Option.none => s
  | some _ =>
    if action = "rotate_left" then (change_volume eff (-step) s).1
    else if action = "rotate_right" then (change_volume eff step s).1
    else if action = "single" then toggle_playback eff s
    else if action = "double" then (set_volume eff 50 s).1
    else if action = "hold" then (set_volume eff 0 s).1
    else s

/-- First output id in `outputs` whose display name equals `zoneName` or
contains it as a substring; embeds the name loop of `_find_zone` in
`find_zone_output_id` over the enumerated outputs (id, display name) in
enumeration order. -/
def findZoneByName (zoneName : String) : List (String × String) → Option String
  | [] => Option.none
  | (outputId, displayName) :: rest =>
    if zoneName = displayName || strHasSub zoneName displayName then some outputId
    else findZoneByName zoneName rest

/-- Body of the nested `_find_zone` in `find_zone_output_id`, given a live
handle whose enumerated outputs are `outputs`: exact `zone_id` key match
first, then first equal-or-substring display-name match, else `None`. -/
def findZoneBody (outputs : List (String × String)) (zoneId zoneName : Option String) :
    Option String :=
  match zoneId with
  | some zid =>
    if outputs.any (fun p => p.1 = zid) then some zid
    else
      match zoneName with
      | some zn => findZoneByName zn outputs
      | Option.none => Option.none
  | Option.none =>
    match zoneName with
    | some zn => findZoneByName zn outputs
    | Option.none => Option.none

/-- A decoded MQTT payload: the optional telemetry fields and optional action
tag that `on_mqtt_message` looks for. -/
structure Payload where
  battery : Option Int
  voltage : Option Int
  linkquality : Option Int
  action : Option String
deriving DecidableEq, Repr

/-- Outcome of `json.loads` on the raw payload: it raises (`fails`), it
yields a JSON value that is not a record — an int, list, string, etc.
(`nonRecord`) — or it yields a record (`record`). -/
inductive Decoded where
  | fails
  | nonRecord
  | record (p : Payload)
deriving DecidableEq, Repr

/-- Embeds `on_mqtt_message`.  When `json.loads` raises, the exception is
caught and nothing changes.  When it yields a non-record JSON value, the
handler has already set `knob_last_seen` before any shape check; the
subsequent `'battery' in payload` membership test then either raises a
TypeError (non-container values; caught by the same except) or finds no
usable field (containers; a hit like `'battery' in ["battery"]` still raises
on the subscript, caught), so in every non-record case the net effect is the
last-seen update alone, with no dispatch and no propagation.  When it yields
a record, last-seen and the present telemetry fields are updated and a
present action tag is forwarded to `handle_knob_action`. -/
def on_mqtt_message (eff : Eff) (step : Int) (decoded : Decoded) (s : Ctrl) : Ctrl :=
  match decoded with
  | Decoded.fails => s
  | Decoded.nonRecord => { s with knobLastSeen := some eff.now }
  | Decoded.record p =>
    let s1 := { s with knobLastSeen := some eff.now }
    let s2 := match p.battery with
      | some b => { s1 with knobBattery := some b }
      | Option.none => s1
    let s3 := match p.voltage with
      | some v => { s2 with knobVoltage := some v }
      | Option.none => s2
    let s4 := match p.linkquality with
      | some l => { s3 with knobLinkquality := some l }
      | Option.none => s3
    match p.action with
    | some a => handle_knob_action eff step a s4
    | Option.none => s4

/-- Embeds `on_mqtt_disconnect`: clears the connected flag and, for a
non-normal reason code, makes exactly one reconnect attempt after a 2 second
sleep (exceptions from `client.reconnect()` are caught).  The returned list
records the reconnect attempts made, each as its delay in seconds. -/
def on_mqtt_disconnect (reasonCode : Int) (s : Ctrl) : Ctrl × List Nat :=
  let s1 := { s with mqttConnected := false }
  if reasonCode ≠ 0 then (s1, [2]) else (s1, [])

/-- Embeds `save_config_dict`: `open(filename, "w")` truncates the file at
once, then `json.dump` writes the serialized record front to back; a raise
after `k` characters is caught and `False` returned, leaving the truncated
prefix on disk.  `failAfter = none` means the dump completes.  `prior` is the
file content before the call; the result is the content after, paired with
the returned boolean. -/
def save_config_dict (serialized : String) (failAfter : Option Nat) (prior : String) :
    String × Bool :=
  match failAfter with
  | Option.none => (serialized, true)
  | some k => (String.mk (serialized.toList.take k), false)

/-- Concrete environment for witnesses: setup always succeeds, the zone volume
reads 98, remote writes succeed, wall time 7. -/
def effW : Eff :=
  ⟨fun _ => true, fun _ => true, fun _ => Except.ok 98, fun _ => true, fun _ => true, [], 7⟩

/-- Concrete controller state: live handle, zone "out1" bound, empty traces. -/
def ctrlW : Ctrl :=
  ⟨true, some "out1", false, 0, false, Option.none, Option.none, Option.none, Option.none,
   [], [], 0, 0, 0, 0, 0⟩

/-- Same state with no zone bound. -/
def ctrlNoZoneW : Ctrl :=
  ⟨true, Option.none, false, 0, false, Option.none, Option.none, Option.none, Option.none,
   [], [], 0, 0, 0, 0, 0⟩

/-- Zone bound but no live Roon handle. -/
def ctrlNoApiW : Ctrl :=
  ⟨false, some "out1", false, 0, false, Option.none, Option.none, Option.none, Option.none,
   [], [], 0, 0, 0, 0, 0⟩

/-- Environment where `setup_roon` fails on its first three calls and succeeds
from the fourth on; the actual zone volume is 80. -/
def effFlakyW : Eff :=
  ⟨fun k => 3 ≤ k, fun _ => false, fun _ => Except.ok 80, fun _ => true, fun _ => true, [], 7⟩

/-- Operation outcomes: raise on the first two invocations, return 42 on the third. -/
def outsTwoRaisesW : Nat → Option PyVal :=
  fun k => if k < 2 then Option.none else some (PyVal.int 42)

@[simp] theorem setup_roon_zone (eff : Eff) (s : Ctrl) :
    ((setup_roon eff s).1).zoneOutputId = s.zoneOutputId := by
  simp only [setup_roon]; split <;> rfl

@[simp] theorem setup_roon_opCount (eff : Eff) (s : Ctrl) :
    ((setup_roon eff s).1).opCount = s.opCount := by
  simp only [setup_roon]; split <;> rfl

@[simp] theorem setup_roon_volReadCount (eff : Eff) (s : Ctrl) :
    ((setup_roon eff s).1).volReadCount = s.volReadCount := by
  simp only [setup_roon]; split <;> rfl

@[simp] theorem setup_roon_setWriteCount (eff : Eff) (s : Ctrl) :
    ((setup_roon eff s).1).setWriteCount = s.setWriteCount := by
  simp only [setup_roon]; split <;> rfl

@[simp] theorem setup_roon_setCalls (eff : Eff) (s : Ctrl) :
    ((setup_roon eff s).1).setCalls = s.setCalls := by
  simp only [setup_roon]; split <;> rfl

@[simp] theorem setup_roon_lastCmd (eff : Eff) (s : Ctrl) :
    ((setup_roon eff s).1).lastSuccessfulCommand = s.lastSuccessfulCommand := by
  simp only [setup_roon]; split <;> rfl

@[simp] theorem setup_roon_hasApi (eff : Eff) (s : Ctrl) :
    ((setup_roon eff s).1).hasApi
      = (eff.setupSucceeds s.setupCount || s.hasApi || eff.setupConstructs s.setupCount) := by
  simp only [setup_roon]; split <;> simp [*]

theorem robustLoop_api_some (eff : Eff) (op : Ctrl → Ctrl × Option PyVal) (rem : Nat)
    (s s1 : Ctrl) (v : PyVal) (ha : s.hasApi = true) (hop : op s = (s1, some v)) :
    robustLoop eff op (rem + 1) s
      = ({ s1 with lastSuccessfulCommand := eff.now, roonConnectionHealthy := true }, v) := by
  unfold robustLoop; simp [ha, hop]

theorem get_current_volume_ok (eff : Eff) (s : Ctrl) (z : String) (c : Int)
    (hz : s.zoneOutputId = some z) (ha : s.hasApi = true)
    (hr : eff.volRead s.volReadCount = Except.ok c) :
    get_current_volume eff s
      = ({ s with
           volReadCount := s.volReadCount + 1
           lastSuccessfulCommand := eff.now
           roonConnectionHealthy := true }, PyVal.int c) := by
  have hop : getVolumeBody eff s
      = ({ s with volReadCount := s.volReadCount + 1 }, some (PyVal.int c)) := by
    unfold getVolumeBody; rw [hz]; simp [ha, hr]
  unfold get_current_volume robust_roon_command
  rw [show (3 : Nat) = 2 + 1 from rfl, robustLoop_api_some eff _ 2 s _ _ ha hop]

theorem set_volume_ok (eff : Eff) (s : Ctrl) (z : String) (v : Int)
    (hz : s.zoneOutputId = some z) (ha : s.hasApi = true) :
    set_volume eff v s
      = ({ s with
           setWriteCount := s.setWriteCount + 1
           setCalls := s.setCalls ++ [(z, max 0 (min 100 v))]
           lastSuccessfulCommand := eff.now
           roonConnectionHealthy := true },
         PyVal.bool (eff.setWrite s.setWriteCount)) := by
  have hop : setVolumeBody eff v s
      = ({ s with
           setWriteCount := s.setWriteCount + 1
           setCalls := s.setCalls ++ [(z, max 0 (min 100 v))] },
         some (PyVal.bool (eff.setWrite s.setWriteCount))) := by
    unfold setVolumeBody; rw [hz]
    by_cases hw : eff.setWrite s.setWriteCount <;> simp [ha, hw]
  unfold set_volume robust_roon_command
  rw [show (3 : Nat) = 2 + 1 from rfl, robustLoop_api_some eff _ 2 s _ _ ha hop]

theorem handle_rotate_right (eff : Eff) (step : Int) (s : Ctrl) (z : String)
    (hz : s.zoneOutputId = some z) :
    handle_knob_action eff step "rotate_right" s = (change_volume eff step s).1 := by
  unfold handle_knob_action; rw [hz]; simp

theorem handle_rotate_left (eff : Eff) (step : Int) (s : Ctrl) (z : String)
    (hz : s.zoneOutputId = some z) :
    handle_knob_action eff step "rotate_left" s = (change_volume eff (-step) s).1 := by
  unfold handle_knob_action; rw [hz]; simp

theorem handle_double (eff : Eff) (step : Int) (s : Ctrl) (z : String)
    (hz : s.zoneOutputId = some z) :
    handle_knob_action eff step "double" s = (set_volume eff 50 s).1 := by
  unfold handle_knob_action; rw [hz]; simp

theorem handle_hold (eff : Eff) (step : Int) (s : Ctrl) (z : String)
    (hz : s.zoneOutputId = some z) :
    handle_knob_action eff step "hold" s = (set_volume eff 0 s).1 := by
  unfold handle_knob_action; rw [hz]; simp

theorem change_volume_setCalls (eff : Eff) (s : Ctrl) (z : String) (c delta : Int)
    (hz : s.zoneOutputId = some z) (ha : s.hasApi = true)
    (hr : eff.volRead s.volReadCount = Except.ok c) :
    ((change_volume eff delta s).1).setCalls
      = s.setCalls ++ [(z, max 0 (min 100 (c + delta)))] := by
  unfold change_volume
  rw [get_current_volume_ok eff s z c hz ha hr]
  have hset := set_volume_ok eff
      { s with volReadCount := s.volReadCount + 1, lastSuccessfulCommand := eff.now, roonConnectionHealthy := true }
      z (max 0 (min 100 (c + delta))) (by simp [hz]) (by simp [ha])
  have harith : max 0 (min 100 (max 0 (min 100 (c + delta)))) = max 0 (min 100 (c + delta)) := by
    omega
  by_cases hw : eff.setWrite s.setWriteCount <;>
    simp [pyAdd, pyTruthy, hset, harith, hw]

/-- C1: every volume value forwarded to `set_volume_percent` is clamped to
[0, 100] whatever value was requested; and for a current volume `c` (a valid
percent) and positive step, rotate-right issues `set_volume_percent` with
`min 100 (c + step)` while rotate-left issues `max 0 (c - step)`. -/
theorem C1_rotate_clamped (eff : Eff) (s : Ctrl) (z : String) (c step : Int)
    (hz : s.zoneOutputId = some z) (ha : s.hasApi = true)
    (hr : eff.volRead s.volReadCount = Except.ok c)
    (hc0 : 0 ≤ c) (hc1 : c ≤ 100) (hs : 0 < step) :
    (∀ v : Int, ∀ e ∈ ((set_volume eff v s).1).setCalls,
        e ∈ s.setCalls ∨ (0 ≤ e.2 ∧ e.2 ≤ 100))
    ∧ (handle_knob_action eff step "rotate_right" s).setCalls
        = s.setCalls ++ [(z, min 100 (c + step))]
    ∧ (handle_knob_action eff step "rotate_left" s).setCalls
        = s.setCalls ++ [(z, max 0 (c - step))] := by
  refine ⟨?_, ?_, ?_⟩
  · intro v e he
    rw [set_volume_ok eff s z v hz ha] at he
    simp only [List.mem_append, List.mem_singleton] at he
    rcases he with h | h
    · exact Or.inl h
    · subst h
      refine Or.inr ⟨?_, ?_⟩ <;> simp
  · rw [handle_rotate_right eff step s z hz,
        change_volume_setCalls eff s z c step hz ha hr]
    have harith : max 0 (min 100 (c + step)) = min 100 (c + step) := by omega
    rw [harith]
  · rw [handle_rotate_left eff step s z hz,
        change_volume_setCalls eff s z c (-step) hz ha hr]
    have harith : max 0 (min 100 (c + -step)) = max 0 (c - step) := by omega
    rw [harith]

theorem C1_rotate_clamped_witness :
    (handle_knob_action effW 5 "rotate_right" ctrlW).setCalls = [("out1", 100)]
    ∧ (handle_knob_action effW 5 "rotate_left" ctrlW).setCalls = [("out1", 93)] := by
  have h := C1_rotate_clamped effW ctrlW "out1" 98 5 rfl rfl rfl
    (by decide) (by decide) (by decide)
  exact ⟨by rw [h.2.1]; decide, by rw [h.2.2]; decide⟩

/-- C2 (code bug): with a zone bound but the Roon handle gone, a volume read
whose retry wrapper exhausts every attempt returns `False` rather than `None`;
`change_volume` only guards with `is not None`, so it treats the `False` as
volume 0 and still issues `set_volume_percent` — here with value 0 + 5 = 5
although the true volume is 80 and the spec requires a silent abort. -/
theorem C2_failed_read_still_sets_volume :
    (get_current_volume effFlakyW ctrlNoApiW).2 = PyVal.bool false
    ∧ ((change_volume effFlakyW 5 ctrlNoApiW).1).setCalls = [("out1", 5)]
    ∧ (change_volume effFlakyW 5 ctrlNoApiW).2 = true := by decide

/-- C3: with a live handle, an operation raising on its first two invocations
and returning on the third makes `robust_roon_command` return that result,
mark the session healthy and stamp the last successful command time; one
raising on all three attempts makes it return `False` and mark unhealthy. -/
theorem C3_retry_wrapper (eff : Eff) (s : Ctrl) (outs : Nat → Option PyVal) (v : PyVal)
    (ha : s.hasApi = true) (h0 : s.opCount = 0) :
    (outs 0 = Option.none → outs 1 = Option.none → outs 2 = some v →
      (robust_roon_command eff (seqOp outs) 3 s).2 = v
      ∧ (robust_roon_command eff (seqOp outs) 3 s).1.roonConnectionHealthy = true
      ∧ (robust_roon_command eff (seqOp outs) 3 s).1.lastSuccessfulCommand = eff.now)
    ∧ (outs 0 = Option.none → outs 1 = Option.none → outs 2 = Option.none →
      (robust_roon_command eff (seqOp outs) 3 s).2 = PyVal.bool false
      ∧ (robust_roon_command eff (seqOp outs) 3 s).1.roonConnectionHealthy = false) := by
  constructor
  · intro o0 o1 o2
    refine ⟨?_, ?_, ?_⟩ <;>
      simp [robust_roon_command, robustLoop, seqOp, ha, h0, o0, o1, o2]
  · intro o0 o1 o2
    refine ⟨?_, ?_⟩ <;>
      simp [robust_roon_command, robustLoop, seqOp, ha, h0, o0, o1, o2]

theorem C3_retry_wrapper_witness :
    (robust_roon_command effW (seqOp outsTwoRaisesW) 3 ctrlW).2 = PyVal.int 42
    ∧ (robust_roon_command effW (seqOp outsTwoRaisesW) 3 ctrlW).1.roonConnectionHealthy = true
    ∧ (robust_roon_command effW (seqOp outsTwoRaisesW) 3 ctrlW).1.lastSuccessfulCommand = 7 := by
  have h := (C3_retry_wrapper effW ctrlW outsTwoRaisesW (PyVal.int 42) rfl rfl).1
    (by decide) (by decide) (by decide)
  exact ⟨h.1, h.2.1, h.2.2⟩

/-- C4 counterexample: a dump raising right after `open(.., "w")` truncated the
file returns `False` and leaves the file empty — the prior content "OLD" is
not left intact, so the save is not atomic as claimed. -/
theorem C4_counterexample :
    (save_config_dict "NEWCONF" (some 0) "OLD").2 = false
    ∧ (save_config_dict "NEWCONF" (some 0) "OLD").1 ≠ "OLD" := by decide

/-- C4 amended: a save either completes — the file then holds exactly the
serialized record and `True` is returned — or returns `False` without raising,
but then the file holds some prefix of the new record: the previously
persisted content is not preserved once the write has begun. -/
theorem C4_save_amended (serialized prior : String) (failAfter : Option Nat) :
    ((save_config_dict serialized failAfter prior).2 = true →
      (save_config_dict serialized failAfter prior).1 = serialized)
    ∧ ((save_config_dict serialized failAfter prior).2 = false →
      ∃ k, (save_config_dict serialized failAfter prior).1
        = String.mk (serialized.toList.take k)) := by
  cases failAfter with
  | none => simp [save_config_dict]
  | some k =>
    refine ⟨fun h => ?_, fun _ => ⟨k, rfl⟩⟩
    simp [save_config_dict] at h

theorem C4_save_amended_witness :
    (save_config_dict "NEWCONF" Option.none "OLD").1 = "NEWCONF" :=
  (C4_save_amended "NEWCONF" "OLD" Option.none).1 rfl

theorem findZoneByName_eq_find (zn : String) (outputs : List (String × String)) :
    findZoneByName zn outputs
      = (outputs.find? fun p => zn = p.2 || strHasSub zn p.2).map Prod.fst := by
  induction outputs with
  | nil => rfl
  | cons p rest ih =>
    obtain ⟨oid, dname⟩ := p
    cases h : (decide (zn = dname) || strHasSub zn dname) <;>
      simp [findZoneByName, List.find?, h, ih]

/-- C5: zone resolution gives the identifier exact-key-match priority — even
when the name would match some other output — then falls back to the first
output in enumeration order whose display name equals or contains the name as
a substring, and yields none when neither matches. -/
theorem C5_zone_resolution (outputs : List (String × String)) (zid zn : String)
    (znOpt : Option String) :
    ((outputs.any fun p => p.1 = zid) = true →
        findZoneBody outputs (some zid) znOpt = some zid)
    ∧ ((outputs.any fun p => p.1 = zid) = false →
        findZoneBody outputs (some zid) (some zn)
          = (outputs.find? fun p => zn = p.2 || strHasSub zn p.2).map Prod.fst)
    ∧ (findZoneBody outputs Option.none (some zn)
        = (outputs.find? fun p => zn = p.2 || strHasSub zn p.2).map Prod.fst)
    ∧ ((outputs.any fun p => p.1 = zid) = false →
        (outputs.find? fun p => zn = p.2 || strHasSub zn p.2) = Option.none →
        findZoneBody outputs (some zid) (some zn) = Option.none)
    ∧ (findZoneBody outputs Option.none Option.none = Option.none) := by
  refine ⟨?_, ?_, ?_, ?_, rfl⟩
  · intro h; simp [findZoneBody, h]
  · intro h; simp [findZoneBody, h, findZoneByName_eq_find]
  · simp [findZoneBody, findZoneByName_eq_find]
  · intro h hn; simp [findZoneBody, h, findZoneByName_eq_find, hn]

theorem C5_zone_resolution_witness :
    findZoneBody [("o1", "Kitchen Display"), ("o2", "Kitchen")] (some "o2") (some "Kitchen")
      = some "o2"
    ∧ findZoneBody [("o1", "Kitchen Display"), ("o2", "Kitchen")] Option.none (some "Kitchen")
      = some "o1" := by
  constructor
  · exact (C5_zone_resolution [("o1", "Kitchen Display"), ("o2", "Kitchen")] "o2" "Kitchen"
      (some "Kitchen")).1 (by decide)
  · rw [(C5_zone_resolution [("o1", "Kitchen Display"), ("o2", "Kitchen")] "o2" "Kitchen"
      (some "Kitchen")).2.2.1]
    decide

/-- C6: with no zone bound, `handle_knob_action` returns with the controller
state untouched for every action tag — no control-service call is issued. -/
theorem C6_no_zone_no_action (eff : Eff) (step : Int) (action : String) (s : Ctrl)
    (h : s.zoneOutputId = Option.none) :
    handle_knob_action eff step action s = s := by
  unfold handle_knob_action; rw [h]

theorem C6_no_zone_no_action_witness :
    handle_knob_action effW 5 "rotate_right" ctrlNoZoneW = ctrlNoZoneW :=
  C6_no_zone_no_action effW 5 "rotate_right" ctrlNoZoneW rfl

/-- C7: a disconnect callback always clears the connected flag; a non-normal
reason code triggers exactly one reconnect attempt after the 2 second delay,
while a normal (requested) disconnect triggers none. -/
theorem C7_disconnect_reconnect (rc : Int) (s : Ctrl) :
    ((on_mqtt_disconnect rc s).1).mqttConnected = false
    ∧ (rc ≠ 0 → (on_mqtt_disconnect rc s).2 = [2])
    ∧ (rc = 0 → (on_mqtt_disconnect rc s).2 = []) := by
  by_cases h : rc = 0 <;> simp [on_mqtt_disconnect, h]

theorem C7_disconnect_reconnect_witness :
    (on_mqtt_disconnect 7 ctrlW).2 = [2] ∧ (on_mqtt_disconnect 0 ctrlW).2 = [] :=
  ⟨(C7_disconnect_reconnect 7 ctrlW).2.1 (by decide),
   (C7_disconnect_reconnect 0 ctrlW).2.2 rfl⟩

/-- C8 counterexample: a payload parsing as the JSON value 5 — valid JSON but
not a structured record — still updates the last-seen telemetry field
(here from unset to time 7), contradicting the claim that a payload failing
to decode as a structured record leaves all telemetry fields unchanged. -/
theorem C8_counterexample :
    (on_mqtt_message effW 5 Decoded.nonRecord ctrlW).knobLastSeen = some 7
    ∧ ctrlW.knobLastSeen = Option.none := by decide

/-- C8 amended: when `json.loads` itself raises, the whole controller state —
telemetry included — is unchanged; when the payload parses as JSON but is not
a record, exactly the last-seen field is updated and battery, voltage and
link quality stay unchanged; in both cases no knob action is invoked and the
handler returns normally. -/
theorem C8_malformed_payload_dropped (eff : Eff) (step : Int) (s : Ctrl) :
    on_mqtt_message eff step Decoded.fails s = s
    ∧ on_mqtt_message eff step Decoded.nonRecord s = { s with knobLastSeen := some eff.now }
    ∧ (on_mqtt_message eff step Decoded.nonRecord s).knobBattery = s.knobBattery
    ∧ (on_mqtt_message eff step Decoded.nonRecord s).knobVoltage = s.knobVoltage
    ∧ (on_mqtt_message eff step Decoded.nonRecord s).knobLinkquality = s.knobLinkquality
    ∧ (on_mqtt_message eff step Decoded.nonRecord s).setCalls = s.setCalls
    ∧ (on_mqtt_message eff step Decoded.nonRecord s).playCalls = s.playCalls :=
  ⟨rfl, rfl, rfl, rfl, rfl, rfl, rfl⟩

/-- C9: with a zone bound and a live handle, a double-press issues exactly one
`set_volume_percent` call with value 50 and a hold exactly one with value 0,
neither reading the current volume first, whatever the prior volume was. -/
theorem C9_double_hold (eff : Eff) (step : Int) (s : Ctrl) (z : String)
    (hz : s.zoneOutputId = some z) (ha : s.hasApi = true) :
    (handle_knob_action eff step "double" s).setCalls = s.setCalls ++ [(z, 50)]
    ∧ (handle_knob_action eff step "double" s).volReadCount = s.volReadCount
    ∧ (handle_knob_action eff step "hold" s).setCalls = s.setCalls ++ [(z, 0)]
    ∧ (handle_knob_action eff step "hold" s).volReadCount = s.volReadCount := by
  rw [handle_double eff step s z hz, handle_hold eff step s z hz,
      set_volume_ok eff s z 50 hz ha, set_volume_ok eff s z 0 hz ha]
  have h50 : max 0 (min 100 (50 : Int)) = 50 := by omega
  have h00 : max 0 (min 100 (0 : Int)) = 0 := by omega
  simp [h50, h00]

theorem C9_double_hold_witness :
    (handle_knob_action effW 5 "double" ctrlW).setCalls = [("out1", 50)]
    ∧ (handle_knob_action effW 5 "hold" ctrlW).setCalls = [("out1", 0)] := by
  have h := C9_double_hold effW 5 ctrlW "out1" rfl rfl
  exact ⟨by rw [h.1]; rfl, by rw [h.2.2.1]; rfl⟩

/-- C10: the retry wrapper counts any non-raising invocation as success — it
marks the session healthy, stamps the time and returns the operation's value
even when that value is Python `None` or `False`; a volume read with no zone
bound returns `None` yet still marks healthy; and an operation legitimately
returning `False` yields the same wrapper return value as one that raised on
every attempt. -/
theorem C10_falsy_success (eff : Eff) (s : Ctrl) (outs outsR : Nat → Option PyVal) (v : PyVal)
    (ha : s.hasApi = true) (h0 : s.opCount = 0) (hv : outs 0 = some v)
    (hz : s.zoneOutputId = Option.none) (hraise : ∀ k, outsR k = Option.none) :
    (robust_roon_command eff (seqOp outs) 3 s).2 = v
    ∧ (robust_roon_command eff (seqOp outs) 3 s).1.roonConnectionHealthy = true
    ∧ (robust_roon_command eff (seqOp outs) 3 s).1.lastSuccessfulCommand = eff.now
    ∧ (get_current_volume eff s).2 = PyVal.none
    ∧ (get_current_volume eff s).1.roonConnectionHealthy = true
    ∧ (outs 0 = some (PyVal.bool false) →
        (robust_roon_command eff (seqOp outs) 3 s).2
          = (robust_roon_command eff (seqOp outsR) 3 s).2) := by
  have hop : getVolumeBody eff s = (s, some PyVal.none) := by
    unfold getVolumeBody; rw [hz]
  have hget : get_current_volume eff s
      = ({ s with lastSuccessfulCommand := eff.now, roonConnectionHealthy := true },
         PyVal.none) := by
    unfold get_current_volume robust_roon_command
    rw [show (3 : Nat) = 2 + 1 from rfl, robustLoop_api_some eff _ 2 s s PyVal.none ha hop]
  refine ⟨?_, ?_, ?_, ?_, ?_, ?_⟩
  · simp [robust_roon_command, robustLoop, seqOp, ha, h0, hv]
  · simp [robust_roon_command, robustLoop, seqOp, ha, h0, hv]
  · simp [robust_roon_command, robustLoop, seqOp, ha, h0, hv]
  · rw [hget]
  · rw [hget]
  · intro hfalse
    have h1 : (robust_roon_command eff (seqOp outs) 3 s).2 = PyVal.bool false := by
      simp [robust_roon_command, robustLoop, seqOp, ha, h0, hfalse]
    have h2 : (robust_roon_command eff (seqOp outsR) 3 s).2 = PyVal.bool false := by
      simp [robust_roon_command, robustLoop, seqOp, ha, h0, hraise]
    rw [h1, h2]

theorem C10_falsy_success_witness :
    (get_current_volume effW ctrlNoZoneW).2 = PyVal.none
    ∧ (get_current_volume effW ctrlNoZoneW).1.roonConnectionHealthy = true := by
  have h := C10_falsy_success effW ctrlNoZoneW (fun _ => some PyVal.none)
      (fun _ => Option.none) PyVal.none rfl rfl rfl rfl (fun _ => rfl)
  exact ⟨h.2.2.2.1, h.2.2.2.2.1⟩
